import Mathlib

/-!
Verification development for the BeerWednesday bot core
(`beer_bot/handlers.py`, `beer_bot/postcard_client.py`).

The Python source is shallowly embedded: pure helpers become Lean
functions, the mutable `bot_data` dictionaries become explicit state
values threaded through the step functions, network and filesystem
effects become explicit environment records, and `raise`d exceptions
become `Except` values.  Machine integers do not overflow in any of the
embedded code paths (dates, counters, indices), so `Nat` is used
directly.

Note on module wiring: `handlers.py` in this revision imports
per-broadcast placeholder path constants and passes a
`placeholder_path` keyword that the `postcard_client.py` revision in
the tree does not declare.  The embedding composes the two modules as
the call sites intend: the handler-side placeholder file and the
client-side placeholder image are modelled as two separate environment
fields, and the extra keyword has no counterpart in the client
function, exactly as in the client source.
-/

namespace BeerBot

/-! ### Calendar model (`datetime.date` fragment used by `_is_penultimate_friday`)

Python's `datetime.date` is a proleptic Gregorian date; `+ timedelta(days=n)`
adds `n` to its ordinal day count and `weekday()` is Monday-based.  The
embedding keeps the `(year, month, day)` view and implements day addition by
iterated day-increment with end-of-month / end-of-year rollover, which agrees
with ordinal addition on valid dates. -/

/-- Gregorian leap-year rule, as used by `datetime.date`. -/
def isLeapYear (y : Nat) : Bool :=
  y % 4 = 0 && (y % 100 ≠ 0 || y % 400 = 0)

/-- Number of days in month `m` (1..12) of year `y`. -/
def daysInMonth (y m : Nat) : Nat :=
  if m = 2 then (if isLeapYear y then 29 else 28)
  else if m = 4 ∨ m = 6 ∨ m = 9 ∨ m = 11 then 30
  else 31

/-- A calendar date in the `(year, month, day)` view of `datetime.date`. -/
structure Date where
  year : Nat
  month : Nat
  day : Nat
deriving DecidableEq, Repr

/-- Validity of a date: the ranges `datetime.date` enforces on construction. -/
def Date.Valid (d : Date) : Prop :=
  1 ≤ d.year ∧ 1 ≤ d.month ∧ d.month ≤ 12 ∧ 1 ≤ d.day ∧ d.day ≤ daysInMonth d.year d.month

instance (d : Date) : Decidable d.Valid := by
  unfold Date.Valid
  infer_instance

/-- Days contributed by the months of year `y` strictly before month `m`. -/
def daysBeforeMonth (y m : Nat) : Nat :=
  (List.range (m - 1)).foldr (fun k acc => daysInMonth y (k + 1) + acc) 0

/-- Ordinal day count of the first day of month `m` of year `y`, minus one.
`toOrdinal` is this offset plus the day of month, matching
`datetime.date.toordinal` (with `(1,1,1).toordinal() = 1`). -/
def yearMonthOffset (y m : Nat) : Nat :=
  365 * (y - 1) + ((y - 1) / 4 - (y - 1) / 100 + (y - 1) / 400) + daysBeforeMonth y m

/-- Proleptic Gregorian ordinal of a date, as in `datetime.date.toordinal`. -/
def toOrdinal (d : Date) : Nat :=
  yearMonthOffset d.year d.month + d.day

/-- Monday-based weekday, as in `datetime.date.weekday` (0=Monday .. 4=Friday). -/
def weekday (d : Date) : Nat :=
  (toOrdinal d + 6) % 7

/-- Successor date: one day later, with month and year rollover. -/
def nextDay (d : Date) : Date :=
  if d.day < daysInMonth d.year d.month then ⟨d.year, d.month, d.day + 1⟩
  else if d.month < 12 then ⟨d.year, d.month + 1, 1⟩
  else ⟨d.year + 1, 1, 1⟩

/-- Date plus `n` days, as in `date + timedelta(days=n)`. -/
def addDays (d : Date) : Nat → Date
  | 0 => d
  | n + 1 => addDays (nextDay d) n

/-- Embedding of `handlers._is_penultimate_friday`: a Friday whose next
Friday is still in the same month while the Friday after that is not. -/
def isPenultimateFriday (candidate : Date) : Bool :=
  if weekday candidate ≠ 4 then false
  else
    let nextFriday := addDays candidate 7
    let twoWeeksLater := addDays candidate 14
    decide (nextFriday.month = candidate.month) &&
      decide (twoWeeksLater.month ≠ candidate.month)

/-- Specification-side notion: the Fridays of month `m` of year `y`. -/
def monthFridays (y m : Nat) : Finset Nat :=
  (Finset.Icc 1 (daysInMonth y m)).filter (fun k => weekday ⟨y, m, k⟩ = 4)

/-- Specification-side notion, from the spec words: the second-to-last Friday
of its month is a Friday with exactly one later Friday in the same month. -/
def IsSecondToLastFriday (d : Date) : Prop :=
  weekday d = 4 ∧
    ((monthFridays d.year d.month).filter (fun k => d.day < k)).card = 1

theorem daysInMonth_ge (y m : Nat) : 28 ≤ daysInMonth y m := by
  unfold daysInMonth
  split
  · split <;> omega
  · split <;> omega

theorem addDays_succ (d : Date) (n : Nat) :
    addDays d (n + 1) = addDays (nextDay d) n := rfl

theorem addDays_add (d : Date) (a b : Nat) :
    addDays d (a + b) = addDays (addDays d a) b := by
  induction a generalizing d with
  | zero => simp [addDays]
  | succ a ih =>
    rw [Nat.succ_add, addDays_succ, ih (nextDay d), ← addDays_succ]

theorem addDays_within (y m : Nat) :
    ∀ n day, day + n ≤ daysInMonth y m →
      addDays ⟨y, m, day⟩ n = ⟨y, m, day + n⟩ := by
  intro n
  induction n with
  | zero => intro day _; rfl
  | succ n ih =>
    intro day h2
    have e : day + (n + 1) = (day + 1) + n := by omega
    rw [e, addDays_succ]
    have hlt : day < daysInMonth y m := by omega
    have hnext : nextDay ⟨y, m, day⟩ = ⟨y, m, day + 1⟩ := by
      simp [nextDay, hlt]
    rw [hnext, ih (day + 1) (by omega)]

theorem addDays_month_ne (y m : Nat) (hm12 : m ≤ 12) :
    ∀ n day, 1 ≤ n → n ≤ 14 → day ≤ daysInMonth y m →
      daysInMonth y m < day + n → (addDays ⟨y, m, day⟩ n).month ≠ m := by
  intro n day hn1 hn14 hdL hover
  set L := daysInMonth y m with hL
  have hsplit : n = (L - day) + (n - (L - day)) := by omega
  have hstep : addDays ⟨y, m, day⟩ (L - day) = ⟨y, m, L⟩ := by
    have := addDays_within y m (L - day) day (by omega)
    rw [this]
    congr 1
    omega
  obtain ⟨k, hk⟩ : ∃ k, n - (L - day) = k + 1 := ⟨n - (L - day) - 1, by omega⟩
  rw [hsplit, addDays_add, hstep, hk, addDays_succ]
  have hroll : nextDay ⟨y, m, L⟩ =
      if m < 12 then ⟨y, m + 1, 1⟩ else ⟨y + 1, 1, 1⟩ := by
    simp [nextDay]
  by_cases h12 : m < 12
  · rw [hroll, if_pos h12]
    have hfit : 1 + k ≤ daysInMonth y (m + 1) := by
      have := daysInMonth_ge y (m + 1)
      omega
    rw [addDays_within y (m + 1) k 1 hfit]
    intro hcontra
    simp only [] at hcontra
    omega
  · rw [hroll, if_neg h12]
    have hfit : 1 + k ≤ daysInMonth (y + 1) 1 := by
      have := daysInMonth_ge (y + 1) 1
      omega
    rw [addDays_within (y + 1) 1 k 1 hfit]
    intro hcontra
    simp only [] at hcontra
    omega

theorem addDays_month_eq_iff (y m day n : Nat) (hm12 : m ≤ 12)
    (hdL : day ≤ daysInMonth y m) (hn1 : 1 ≤ n) (hn14 : n ≤ 14) :
    (addDays ⟨y, m, day⟩ n).month = m ↔ day + n ≤ daysInMonth y m := by
  constructor
  · intro h
    by_contra hgt
    exact addDays_month_ne y m hm12 n day hn1 hn14 hdL (by omega) h
  · intro h
    rw [addDays_within y m n day h]

theorem weekday_linear (y m k : Nat) :
    weekday ⟨y, m, k⟩ = ((yearMonthOffset y m + 6) + k) % 7 := by
  show (yearMonthOffset y m + k + 6) % 7 = ((yearMonthOffset y m + 6) + k) % 7
  omega

theorem weekday_eq_four_iff (y m day k : Nat) (hf : weekday ⟨y, m, day⟩ = 4) :
    weekday ⟨y, m, k⟩ = 4 ↔ k % 7 = day % 7 := by
  rw [weekday_linear] at hf ⊢
  constructor
  · intro hk
    have : (yearMonthOffset y m + 6 + k) % 7 = (yearMonthOffset y m + 6 + day) % 7 := by
      rw [hk, hf]
    exact Nat.ModEq.add_left_cancel' (yearMonthOffset y m + 6) this
  · intro hmod
    rw [← hf]
    exact Nat.ModEq.add_left (yearMonthOffset y m + 6) hmod

theorem laterFridays_card_iff (y m day : Nat) (hday : 1 ≤ day)
    (hdL : day ≤ daysInMonth y m) (hf : weekday ⟨y, m, day⟩ = 4) :
    ((monthFridays y m).filter (fun k => day < k)).card = 1 ↔
      (day + 7 ≤ daysInMonth y m ∧ daysInMonth y m < day + 14) := by
  set L := daysInMonth y m with hLdef
  have hmem : ∀ k, k ∈ (monthFridays y m).filter (fun k => day < k) ↔
      (1 ≤ k ∧ k ≤ L ∧ k % 7 = day % 7 ∧ day < k) := by
    intro k
    unfold monthFridays
    rw [Finset.mem_filter, Finset.mem_filter, Finset.mem_Icc,
      weekday_eq_four_iff y m day k hf]
    tauto
  have hshape : ∀ k, k ∈ (monthFridays y m).filter (fun k => day < k) →
      ∃ t, 1 ≤ t ∧ k = day + 7 * t := by
    intro k hk
    rw [hmem k] at hk
    obtain ⟨-, -, hkmod, hkgt⟩ := hk
    have hdvd : 7 ∣ k - day := by
      rw [← Nat.modEq_iff_dvd' (Nat.le_of_lt hkgt)]
      exact hkmod.symm
    obtain ⟨t, ht⟩ := hdvd
    exact ⟨t, by omega, by omega⟩
  constructor
  · intro hcard
    by_contra hnot
    by_cases h7 : day + 7 ≤ L
    · have h14 : day + 14 ≤ L := by omega
      have h1 : day + 7 ∈ (monthFridays y m).filter (fun k => day < k) := by
        rw [hmem]
        exact ⟨by omega, by omega, by omega, by omega⟩
      have h2 : day + 14 ∈ (monthFridays y m).filter (fun k => day < k) := by
        rw [hmem]
        exact ⟨by omega, by omega, by omega, by omega⟩
      have hsub : ({day + 7, day + 14} : Finset Nat) ⊆
          (monthFridays y m).filter (fun k => day < k) := by
        intro k hk
        rw [Finset.mem_insert, Finset.mem_singleton] at hk
        rcases hk with h | h <;> subst h
        · exact h1
        · exact h2
      have hcard2 : ({day + 7, day + 14} : Finset Nat).card = 2 := by
        rw [Finset.card_insert_of_not_mem (by simp)]
        rfl
      have := Finset.card_le_card hsub
      omega
    · have hempty : (monthFridays y m).filter (fun k => day < k) = ∅ := by
        rw [Finset.eq_empty_iff_forall_not_mem]
        intro k hk
        obtain ⟨t, ht1, hteq⟩ := hshape k hk
        rw [hmem k] at hk
        omega
      rw [hempty] at hcard
      simp at hcard
  · intro ⟨h7, h14⟩
    have hsingle : (monthFridays y m).filter (fun k => day < k) = {day + 7} := by
      apply Finset.eq_singleton_iff_unique_mem.mpr
      constructor
      · rw [hmem]
        exact ⟨by omega, by omega, by omega, by omega⟩
      · intro k hk
        obtain ⟨t, ht1, hteq⟩ := hshape k hk
        rw [hmem k] at hk
        omega
    rw [hsingle, Finset.card_singleton]

theorem isPenultimateFriday_iff_secondToLast (d : Date) (h : d.Valid) :
    isPenultimateFriday d = true ↔ IsSecondToLastFriday d := by
  obtain ⟨y, m, day⟩ := d
  obtain ⟨hy, hm1, hm12, hday, hdL⟩ := h
  dsimp only at hy hm1 hm12 hday hdL
  by_cases hf : weekday ⟨y, m, day⟩ = 4
  · have h7 := addDays_month_eq_iff y m day 7 hm12 hdL (by omega) (by omega)
    have h14 := addDays_month_eq_iff y m day 14 hm12 hdL (by omega) (by omega)
    have hcard := laterFridays_card_iff y m day hday hdL hf
    simp only [isPenultimateFriday, IsSecondToLastFriday, hf, ne_eq,
      not_true_eq_false, if_false, Bool.and_eq_true, decide_eq_true_eq,
      true_and]
    rw [h7, h14, hcard]
    omega
  · simp [isPenultimateFriday, IsSecondToLastFriday, hf]

/-- Claim C1: `_is_penultimate_friday` returns true for a date `d` iff `d` is
a Friday and `d + 7` days falls in the same month while `d + 14` days falls in
a different month; consequently, on every valid date it is true exactly for
the second-to-last Friday of the month — for August 2024 only the 23rd, for
February 2024 only the 16th, for February 2023 only the 17th — and false for
every non-Friday date, independent of month length or leap years. -/
theorem penultimate_friday_characterization (d : Date) (h : d.Valid) :
    (isPenultimateFriday d = true ↔
      (weekday d = 4 ∧ (addDays d 7).month = d.month ∧
        (addDays d 14).month ≠ d.month)) ∧
    (isPenultimateFriday d = true ↔ IsSecondToLastFriday d) ∧
    (weekday d ≠ 4 → isPenultimateFriday d = false) ∧
    (∀ k, k < 32 → (isPenultimateFriday ⟨2024, 8, k⟩ = true ↔ k = 23)) ∧
    (∀ k, k < 30 → (isPenultimateFriday ⟨2024, 2, k⟩ = true ↔ k = 16)) ∧
    (∀ k, k < 29 → (isPenultimateFriday ⟨2023, 2, k⟩ = true ↔ k = 17)) := by
  refine ⟨?_, isPenultimateFriday_iff_secondToLast d h, ?_,
    by decide, by decide, by decide⟩
  · by_cases hf : weekday d = 4
    · simp [isPenultimateFriday, hf]
    · simp [isPenultimateFriday, hf]
  · intro hnf
    simp [isPenultimateFriday, hnf]

/-- Witness for C1 at the second-to-last Friday of August 2024. -/
theorem penultimate_friday_characterization_witness :
    Date.Valid ⟨2024, 8, 23⟩ ∧
      (isPenultimateFriday ⟨2024, 8, 23⟩ = true ↔
        IsSecondToLastFriday ⟨2024, 8, 23⟩) :=
  ⟨by decide, (penultimate_friday_characterization ⟨2024, 8, 23⟩ (by decide)).2.1⟩

/-! ### Scenario rotation (`_pop_next_postcard_scenario`, `_compose_postcard_prompt`)

The rotation state lives in `bot_data` under `postcard_scenarios` (the fixed
list) and `postcard_scenario_index` (the cursor, initialised to 0); the
embedding passes both explicitly and returns the updated cursor. -/

/-- Embedding of `handlers._pop_next_postcard_scenario`: reads the scenario at
`index % len`, stores `(index + 1) % len` back and returns the scenario; an
empty rotation returns the empty string and leaves the cursor untouched.  (The
guard for a missing `application` attribute on the Telegram context object is
not part of the rotation semantics and is not modelled.) -/
def popNextPostcardScenario (scenarios : List String) (index : Nat) :
    String × Nat :=
  match scenarios with
  | [] => (("") , index)
  | _ :: _ =>
    (scenarios.getD (index % scenarios.length) (""),
      (index + 1) % scenarios.length)

/-- Embedding of `handlers._compose_postcard_prompt`: trimmed base prompt,
then an optional rotating scenario segment, then an optional extra-wishes
segment, joined by blank lines; returns the prompt and the advanced cursor. -/
def composePostcardPrompt (scenarios : List String) (index : Nat)
    (basePrompt extra : String) : String × Nat :=
  let sc := popNextPostcardScenario scenarios index
  let parts1 := [basePrompt.trim]
  let parts2 :=
    if sc.1 ≠ ("") then parts1 ++ ["Сценарий: " ++ sc.1] else parts1
  let parts3 :=
    if extra ≠ ("") then parts2 ++ ["Дополнительные пожелания: " ++ extra]
    else parts2
  (String.intercalate ("\n\n") parts3, sc.2)

/-- Scenario strings returned by `k` successive rotation pops. -/
def scenarioRun (scenarios : List String) (index : Nat) : Nat → List String
  | 0 => []
  | k + 1 =>
    let sc := popNextPostcardScenario scenarios index
    sc.1 :: scenarioRun scenarios sc.2 k

theorem popNext_nonempty (scenarios : List String) (hne : scenarios ≠ [])
    (i : Nat) :
    popNextPostcardScenario scenarios i =
      (scenarios.getD (i % scenarios.length) (""),
        (i + 1) % scenarios.length) := by
  cases scenarios with
  | nil => exact absurd rfl hne
  | cons a l => rfl

theorem scenarioRun_eq_map (scenarios : List String) (hne : scenarios ≠ []) :
    ∀ k i, scenarioRun scenarios i k =
      (List.range k).map
        (fun t => scenarios.getD ((i + t) % scenarios.length) ("")) := by
  intro k
  induction k with
  | zero => intro i; rfl
  | succ k ih =>
    intro i
    rw [List.range_succ_eq_map, List.map_cons, List.map_map]
    show (popNextPostcardScenario scenarios i).1 ::
      scenarioRun scenarios (popNextPostcardScenario scenarios i).2 k = _
    rw [popNext_nonempty scenarios hne i]
    congr 1
    rw [ih ((i + 1) % scenarios.length)]
    apply List.map_congr_left
    intro t _
    simp only [Function.comp]
    rw [Nat.mod_add_mod]
    have e : i + 1 + t = i + Nat.succ t := by omega
    rw [e]

theorem scenarioRun_cycle_eq_rotate (scenarios : List String)
    (hne : scenarios ≠ []) (i : Nat) :
    scenarioRun scenarios i scenarios.length =
      scenarios.rotate (i % scenarios.length) := by
  have hN : 0 < scenarios.length := List.length_pos.mpr hne
  rw [scenarioRun_eq_map scenarios hne]
  apply List.ext_getElem
  · simp [List.length_rotate]
  · intro t h1 h2
    simp only [List.getElem_map, List.getElem_range, List.getElem_rotate]
    rw [List.getD_eq_getElem _ _ (Nat.mod_lt _ hN)]
    congr 1
    conv_rhs => rw [Nat.add_comm]
    rw [Nat.mod_add_mod]

theorem scenarioRun_cycle_perm (scenarios : List String) (hne : scenarios ≠ [])
    (i : Nat) : (scenarioRun scenarios i scenarios.length).Perm scenarios := by
  rw [scenarioRun_cycle_eq_rotate scenarios hne i]
  exact List.rotate_perm scenarios (i % scenarios.length)

theorem scenarioRun_double (scenarios : List String) (hne : scenarios ≠ [])
    (i : Nat) :
    scenarioRun scenarios i (2 * scenarios.length) =
      scenarioRun scenarios i scenarios.length ++
        scenarioRun scenarios i scenarios.length := by
  rw [scenarioRun_eq_map scenarios hne, scenarioRun_eq_map scenarios hne]
  have h2 : 2 * scenarios.length = scenarios.length + scenarios.length := by
    omega
  rw [h2, List.range_add, List.map_append, List.map_map]
  congr 1
  apply List.map_congr_left
  intro t _
  simp only [Function.comp]
  congr 1
  have e : i + (scenarios.length + t) = (i + t) + scenarios.length := by omega
  rw [e, Nat.add_mod_right]

theorem scenarioRun_getD (scenarios : List String) (hne : scenarios ≠ [])
    (i k t : Nat) (ht : t < k) :
    (scenarioRun scenarios i k).getD t ("") =
      scenarios.getD ((i + t) % scenarios.length) ("") := by
  rw [scenarioRun_eq_map scenarios hne]
  rw [List.getD_eq_getElem _ _ (by simpa using ht)]
  simp

theorem scenarioRun_adjacent_ne (scenarios : List String)
    (hnodup : scenarios.Nodup) (hN : 1 < scenarios.length) (i k t : Nat)
    (ht : t + 1 < k) :
    (scenarioRun scenarios i k).getD t ("") ≠
      (scenarioRun scenarios i k).getD (t + 1) ("") := by
  have hne : scenarios ≠ [] := by
    intro h
    rw [h] at hN
    simp at hN
  have hNpos : 0 < scenarios.length := by omega
  rw [scenarioRun_getD scenarios hne i k t (by omega),
    scenarioRun_getD scenarios hne i k (t + 1) ht]
  have hidx : (i + t) % scenarios.length ≠ (i + (t + 1)) % scenarios.length := by
    intro hcontra
    have hmodeq : Nat.ModEq scenarios.length (i + t) (i + t + 1) := hcontra
    have hdvd : scenarios.length ∣ 1 := by
      have := (Nat.modEq_iff_dvd' (by omega)).mp hmodeq
      simpa using this
    have := Nat.dvd_one.mp hdvd
    omega
  intro hcontra
  apply hidx
  have ha : (i + t) % scenarios.length < scenarios.length :=
    Nat.mod_lt _ hNpos
  have hb : (i + (t + 1)) % scenarios.length < scenarios.length :=
    Nat.mod_lt _ hNpos
  rw [List.getD_eq_getElem _ _ ha, List.getD_eq_getElem _ _ hb] at hcontra
  exact (List.Nodup.getElem_inj_iff hnodup).mp hcontra

/-- Claim C8 counterexample: for the two-element rotation `["a", "a"]`
(length 2, not 1) starting at cursor 0, two back-to-back calls return the
same scenario string, and over `2 * N = 4` calls the scenario `"a"` is used
four times, not exactly twice.  The claim's universal quantification over
every non-empty scenario sequence therefore fails on sequences with
duplicate entries. -/
theorem scenario_rotation_counterexample :
    (scenarioRun [("a"), ("a")] 0 2).getD 0 ("x") =
        (scenarioRun [("a"), ("a")] 0 2).getD 1 ("x") ∧
      ([("a"), ("a")] : List String).length ≠ 1 ∧
      (scenarioRun [("a"), ("a")] 0 4).count ("a") ≠ 2 := by
  decide

/-- Claim C8, amended: for every non-empty scenario sequence of length `N`
and every starting cursor, each compose call uses the rotation entry at the
current cursor modulo `N` and advances the cursor by exactly one (wrapping
modulo `N`) regardless of how many prompt segments are emitted; the scenario
used by the `t`-th successive call is the entry at index `(start + t) % N`,
so `2N` successive calls use each entry of the sequence exactly twice (each
scenario value is used twice its multiplicity in the sequence); and, provided
the sequence has no duplicate entries, two back-to-back calls never see the
same scenario unless `N = 1`. -/
theorem scenario_rotation_cycle (scenarios : List String) (i : Nat)
    (hne : scenarios ≠ []) :
    (popNextPostcardScenario scenarios i =
        (scenarios.getD (i % scenarios.length) (""),
          (i + 1) % scenarios.length)) ∧
      (∀ basePrompt extra,
        (composePostcardPrompt scenarios i basePrompt extra).2 =
          (i + 1) % scenarios.length) ∧
      (∀ k t, t < k →
        (scenarioRun scenarios i k).getD t ("") =
          scenarios.getD ((i + t) % scenarios.length) ("")) ∧
      (∀ s, (scenarioRun scenarios i (2 * scenarios.length)).count s =
        2 * scenarios.count s) ∧
      (scenarios.Nodup → 1 < scenarios.length →
        ∀ k t, t + 1 < k →
          (scenarioRun scenarios i k).getD t ("") ≠
            (scenarioRun scenarios i k).getD (t + 1) ("")) := by
  refine ⟨popNext_nonempty scenarios hne i, ?_, ?_, ?_, ?_⟩
  · intro basePrompt extra
    show (popNextPostcardScenario scenarios i).2 = _
    rw [popNext_nonempty scenarios hne i]
  · intro k t ht
    exact scenarioRun_getD scenarios hne i k t ht
  · intro s
    rw [scenarioRun_double scenarios hne i, List.count_append,
      (scenarioRun_cycle_perm scenarios hne i).count_eq]
    omega
  · intro hnodup hN k t ht
    exact scenarioRun_adjacent_ne scenarios hnodup hN i k t ht

/-- Witness for C8 at a concrete three-scenario rotation and cursor 5. -/
theorem scenario_rotation_cycle_witness :
    ([("s1"), ("s2"), ("s3")] : List String) ≠ [] ∧
      (scenarioRun [("s1"), ("s2"), ("s3")] 5 6).count ("s2") = 2 :=
  ⟨by decide,
    (scenario_rotation_cycle [("s1"), ("s2"), ("s3")] 5 (by decide)).2.2.2.1
      ("s2")⟩

/-! ### Attendance poll aggregator (`_start_attendance_poll`, `handle_poll_answer`)

Python dictionaries are embedded as association lists with unique keys:
assignment replaces the value of an existing key in place and appends a new
binding at the end, exactly as `dict` item assignment does; lookup returns
the first (hence, with unique keys, the only) matching entry. -/

/-- Dictionary lookup: the first value stored under key `k`. -/
def lookupA {α β : Type} [DecidableEq α] : List (α × β) → α → Option β
  | [], _ => none
  | (a, b) :: rest, k => if a = k then some b else lookupA rest k

/-- Dictionary assignment `m[k] = v`: replaces the value under an existing
key in place, otherwise appends the new binding at the end. -/
def setA {α β : Type} [DecidableEq α] (m : List (α × β)) (k : α) (v : β) :
    List (α × β) :=
  if (lookupA m k).isSome then
    m.map (fun p => if p.1 = k then (k, v) else p)
  else m ++ [(k, v)]

/-- Number of entries stored under key `k`. -/
def countKey {α β : Type} [DecidableEq α] (m : List (α × β)) (k : α) : Nat :=
  (m.map Prod.fst).count k

theorem lookupA_append {α β : Type} [DecidableEq α] (m l : List (α × β))
    (k : α) :
    lookupA (m ++ l) k =
      match lookupA m k with
      | some b => some b
      | none => lookupA l k := by
  induction m with
  | nil => rfl
  | cons p rest ih =>
    obtain ⟨a, b⟩ := p
    by_cases h : a = k
    · simp [lookupA, h]
    · simp [lookupA, h, ih]

theorem lookupA_eq_none {α β : Type} [DecidableEq α] (m : List (α × β))
    (k : α) : lookupA m k = none ↔ k ∉ m.map Prod.fst := by
  induction m with
  | nil => simp [lookupA]
  | cons p rest ih =>
    obtain ⟨a, b⟩ := p
    by_cases h : a = k
    · simp [lookupA, h]
    · simp [lookupA, h, ih, Ne.symm h]

theorem lookupA_map_replace {α β : Type} [DecidableEq α] (k : α) (v : β) :
    ∀ (m : List (α × β)) (k2 : α),
      lookupA (m.map (fun p => if p.1 = k then (k, v) else p)) k2 =
        (lookupA m k2).map (fun b => if k2 = k then v else b) := by
  intro m
  induction m with
  | nil => intro k2; rfl
  | cons p rest ih =>
    intro k2
    obtain ⟨a, b⟩ := p
    rw [List.map_cons]
    by_cases hak : a = k
    · have hhead : (if ((a, b) : α × β).1 = k then ((k, v) : α × β) else (a, b))
          = (k, v) := by
        simp [hak]
      rw [hhead]
      by_cases hk2 : k2 = k
      · subst hk2
        subst hak
        simp [lookupA]
      · subst hak
        simp [lookupA, Ne.symm hk2, hk2, ih k2]
    · have hhead : (if ((a, b) : α × β).1 = k then ((k, v) : α × β) else (a, b))
          = (a, b) := by
        simp [hak]
      rw [hhead]
      by_cases hk2 : a = k2
      · subst hk2
        have hk2k : ¬ a = k := hak
        simp [lookupA, hk2k]
      · simp [lookupA, hk2, ih k2]

theorem lookupA_setA_self {α β : Type} [DecidableEq α] (m : List (α × β))
    (k : α) (v : β) : lookupA (setA m k v) k = some v := by
  unfold setA
  by_cases h : (lookupA m k).isSome
  · rw [if_pos h, lookupA_map_replace]
    obtain ⟨b, hb⟩ := Option.isSome_iff_exists.mp h
    rw [hb]
    simp
  · rw [if_neg h, lookupA_append]
    rw [Option.not_isSome_iff_eq_none.mp h]
    simp [lookupA]

theorem lookupA_setA_ne {α β : Type} [DecidableEq α] (m : List (α × β))
    (k k2 : α) (v : β) (h : k2 ≠ k) :
    lookupA (setA m k v) k2 = lookupA m k2 := by
  unfold setA
  by_cases hs : (lookupA m k).isSome
  · rw [if_pos hs, lookupA_map_replace]
    cases lookupA m k2 <;> simp [h]
  · rw [if_neg hs, lookupA_append]
    cases hl : lookupA m k2 with
    | some b => rfl
    | none => simp [lookupA, Ne.symm h]

theorem keys_setA {α β : Type} [DecidableEq α] (m : List (α × β)) (k : α)
    (v : β) :
    (setA m k v).map Prod.fst =
      if (lookupA m k).isSome then m.map Prod.fst
      else m.map Prod.fst ++ [k] := by
  unfold setA
  by_cases h : (lookupA m k).isSome
  · rw [if_pos h, if_pos h, List.map_map]
    apply List.map_congr_left
    intro p _
    by_cases hp : p.1 = k
    · simp [Function.comp, hp]
    · simp [Function.comp, hp]
  · rw [if_neg h, if_neg h, List.map_append]
    rfl

theorem nodupKeys_setA {α β : Type} [DecidableEq α] (m : List (α × β))
    (k : α) (v : β) (h : (m.map Prod.fst).Nodup) :
    ((setA m k v).map Prod.fst).Nodup := by
  rw [keys_setA]
  by_cases hs : (lookupA m k).isSome
  · rw [if_pos hs]
    exact h
  · rw [if_neg hs]
    have hk : k ∉ m.map Prod.fst :=
      (lookupA_eq_none m k).mp (Option.not_isSome_iff_eq_none.mp hs)
    refine List.Nodup.append h (List.nodup_singleton k) ?_
    intro a ha hb
    rw [List.mem_singleton] at hb
    subst hb
    exact hk ha

theorem countKey_setA_self {α β : Type} [DecidableEq α] (m : List (α × β))
    (k : α) (v : β) (h : (m.map Prod.fst).Nodup) :
    countKey (setA m k v) k = 1 := by
  unfold countKey
  rw [keys_setA]
  by_cases hs : (lookupA m k).isSome
  · rw [if_pos hs]
    have hk : k ∈ m.map Prod.fst := by
      by_contra hk
      rw [← lookupA_eq_none m k] at hk
      rw [hk] at hs
      simp at hs
    exact List.count_eq_one_of_mem h hk
  · rw [if_neg hs]
    have hk : k ∉ m.map Prod.fst :=
      (lookupA_eq_none m k).mp (Option.not_isSome_iff_eq_none.mp hs)
    rw [List.count_append, List.count_eq_zero_of_not_mem hk]
    simp

/-- Option index meaning "attending" (`ATTENDANCE_GOING_OPTION_INDEX`). -/
def GOING_OPTION_INDEX : Nat := 0

/-- Quorum for the reserve-a-table notification (`ATTENDANCE_THRESHOLD`). -/
def THRESHOLD : Nat := 5

/-- State tracked per attendance poll in `bot_data["attendance_polls"]`:
chat id, poll message id, whether the one-time notification fired, and the
per-user votes (user id to selected option indices). -/
structure PollState where
  chatId : Int
  messageId : Nat
  notified : Bool
  votes : List (Nat × List Nat)
deriving DecidableEq, Repr

/-- The `bot_data["attendance_polls"]` mapping from poll id to poll state. -/
abbrev AggState := List (String × PollState)

/-- State registered by `_start_attendance_poll` once a poll message is
posted: `notified = false` with an empty votes mapping. -/
def startAttendancePollState (st : AggState) (pollId : String) (chatId : Int)
    (messageId : Nat) : AggState :=
  setA st pollId (PollState.mk chatId messageId false [])

/-- A `poll_answer` update: the poll, the answering user, and the selected
option indices (empty when the user retracts the vote). -/
structure PollAnswerEv where
  pollId : String
  userId : Nat
  optionIds : List Nat
deriving DecidableEq, Repr

/-- Number of users whose current selection includes option index 0
(`going_count` in `handle_poll_answer`). -/
def goingCount (votes : List (Nat × List Nat)) : Nat :=
  (votes.filter (fun p => decide (GOING_OPTION_INDEX ∈ p.2))).length

/-- Embedding of `handlers.handle_poll_answer`: record the vote
(last write per user wins), recompute the attending count, and fire the
one-time group notification on the first threshold crossing.  Returns the
updated state and whether the notification was sent; an untracked poll id
leaves the state unchanged. -/
def handlePollAnswer (st : AggState) (ev : PollAnswerEv) : AggState × Bool :=
  match lookupA st ev.pollId with
  | none => (st, false)
  | some ps =>
    let votes2 := setA ps.votes ev.userId ev.optionIds
    let cnt := goingCount votes2
    if THRESHOLD ≤ cnt ∧ ps.notified = false then
      (setA st ev.pollId (PollState.mk ps.chatId ps.messageId true votes2),
        true)
    else
      (setA st ev.pollId
        (PollState.mk ps.chatId ps.messageId ps.notified votes2), false)

/-- Replay of a sequence of `poll_answer` updates, logging for each event
whether the notification fired. -/
def runPollAnswers (st : AggState) :
    List PollAnswerEv → AggState × List (PollAnswerEv × Bool)
  | [] => (st, [])
  | ev :: rest =>
    let step := handlePollAnswer st ev
    let restRun := runPollAnswers step.1 rest
    (restRun.1, (ev, step.2) :: restRun.2)

/-- Number of notifications sent for poll `pid` in an event log. -/
def notificationsFor (log : List (PollAnswerEv × Bool)) (pid : String) :
    Nat :=
  (log.filter (fun e => decide (e.1.pollId = pid) && e.2)).length

theorem handlePollAnswer_unknown (st : AggState) (ev : PollAnswerEv)
    (h : lookupA st ev.pollId = none) : handlePollAnswer st ev = (st, false) := by
  unfold handlePollAnswer
  rw [h]

theorem handlePollAnswer_sent_iff (st : AggState) (ev : PollAnswerEv) :
    (handlePollAnswer st ev).2 = true ↔
      ∃ ps, lookupA st ev.pollId = some ps ∧ ps.notified = false ∧
        THRESHOLD ≤ goingCount (setA ps.votes ev.userId ev.optionIds) := by
  unfold handlePollAnswer
  cases h : lookupA st ev.pollId with
  | none => simp [h]
  | some ps =>
    simp only [h]
    split
    · rename_i hc
      simp only [true_iff]
      exact ⟨ps, rfl, hc.2, hc.1⟩
    · rename_i hc
      constructor
      · intro habs
        exact absurd habs (by simp)
      · rintro ⟨ps2, hps2, hnot, hcnt⟩
        injection hps2 with e
        subst e
        exact absurd ⟨hcnt, hnot⟩ hc

theorem handlePollAnswer_state (st : AggState) (ev : PollAnswerEv)
    (ps : PollState) (h : lookupA st ev.pollId = some ps) :
    (handlePollAnswer st ev).1 =
      setA st ev.pollId
        (PollState.mk ps.chatId ps.messageId
          (ps.notified ||
            decide (THRESHOLD ≤
              goingCount (setA ps.votes ev.userId ev.optionIds)))
          (setA ps.votes ev.userId ev.optionIds)) := by
  unfold handlePollAnswer
  rw [h]
  simp only []
  split
  · rename_i hc
    rw [hc.2]
    simp [hc.1]
  · rename_i hc
    cases hn : ps.notified
    · simp only [hn, Bool.false_or]
      congr 2
      rw [decide_eq_false]
      intro hcnt
      exact hc ⟨hcnt, hn⟩
    · simp [hn]

theorem handlePollAnswer_notified_monotone (st : AggState) (ev : PollAnswerEv)
    (pid : String) (ps : PollState) (h : lookupA st pid = some ps)
    (hn : ps.notified = true) :
    ∃ ps2, lookupA (handlePollAnswer st ev).1 pid = some ps2 ∧
      ps2.notified = true := by
  by_cases hpid : pid = ev.pollId
  · subst hpid
    rw [handlePollAnswer_state st ev ps h, lookupA_setA_self]
    exact ⟨_, rfl, by simp [hn]⟩
  · cases hlook : lookupA st ev.pollId with
    | none =>
      rw [handlePollAnswer_unknown st ev hlook]
      exact ⟨ps, h, hn⟩
    | some q =>
      rw [handlePollAnswer_state st ev q hlook,
        lookupA_setA_ne _ _ _ _ hpid]
      exact ⟨ps, h, hn⟩

theorem handlePollAnswer_sent_notified (st : AggState) (ev : PollAnswerEv)
    (h : (handlePollAnswer st ev).2 = true) :
    ∃ ps2, lookupA (handlePollAnswer st ev).1 ev.pollId = some ps2 ∧
      ps2.notified = true := by
  obtain ⟨ps, hps, -, hcnt⟩ := (handlePollAnswer_sent_iff st ev).mp h
  rw [handlePollAnswer_state st ev ps hps, lookupA_setA_self]
  exact ⟨_, rfl, by simp [hcnt]⟩

theorem notificationsFor_zero_of_notified (pid : String) :
    ∀ (evs : List PollAnswerEv) (st : AggState) (ps : PollState),
      lookupA st pid = some ps → ps.notified = true →
      notificationsFor (runPollAnswers st evs).2 pid = 0 := by
  intro evs
  induction evs with
  | nil => intro st ps _ _; rfl
  | cons ev rest ih =>
    intro st ps h hn
    obtain ⟨ps2, hps2, hn2⟩ := handlePollAnswer_notified_monotone st ev pid ps h hn
    show notificationsFor
      ((ev, (handlePollAnswer st ev).2) :: (runPollAnswers (handlePollAnswer st ev).1 rest).2) pid = 0
    unfold notificationsFor
    rw [List.filter_cons]
    have hhead : (decide (ev.pollId = pid) && (handlePollAnswer st ev).2) = false := by
      by_cases hpid : ev.pollId = pid
      · subst hpid
        cases hsent : (handlePollAnswer st ev).2
        · simp
        · exfalso
          obtain ⟨ps4, hps4, hnf, -⟩ := (handlePollAnswer_sent_iff st ev).mp hsent
          rw [h] at hps4
          injection hps4 with e
          subst e
          rw [hn] at hnf
          exact Bool.noConfusion hnf
      · simp [hpid]
    rw [hhead]
    simp only [Bool.false_eq_true, if_false]
    exact ih (handlePollAnswer st ev).1 ps2 hps2 hn2

theorem notificationsFor_le_one (pid : String) :
    ∀ (evs : List PollAnswerEv) (st : AggState),
      notificationsFor (runPollAnswers st evs).2 pid ≤ 1 := by
  intro evs
  induction evs with
  | nil => intro st; exact Nat.zero_le 1
  | cons ev rest ih =>
    intro st
    show notificationsFor
      ((ev, (handlePollAnswer st ev).2) :: (runPollAnswers (handlePollAnswer st ev).1 rest).2) pid ≤ 1
    unfold notificationsFor
    rw [List.filter_cons]
    by_cases hhead : (decide (ev.pollId = pid) && (handlePollAnswer st ev).2) = true
    · rw [hhead]
      simp only [if_true, List.length_cons]
      have hpid : ev.pollId = pid := by
        rcases Bool.and_eq_true .. |>.mp hhead with ⟨hd, -⟩
        exact of_decide_eq_true hd
      have hsent : (handlePollAnswer st ev).2 = true := by
        rcases Bool.and_eq_true .. |>.mp hhead with ⟨-, hs⟩
        exact hs
      obtain ⟨ps2, hps2, hn2⟩ := handlePollAnswer_sent_notified st ev hsent
      rw [hpid] at hps2
      have := notificationsFor_zero_of_notified pid rest
        (handlePollAnswer st ev).1 ps2 hps2 hn2
      unfold notificationsFor at this
      omega
    · rw [Bool.not_eq_true] at hhead
      rw [hhead]
      simp only [Bool.false_eq_true, if_false]
      exact ih (handlePollAnswer st ev).1

theorem handlePollAnswer_votes (st : AggState) (ev : PollAnswerEv)
    (ps : PollState) (h : lookupA st ev.pollId = some ps)
    (hnodup : (ps.votes.map Prod.fst).Nodup) :
    ∃ ps2, lookupA (handlePollAnswer st ev).1 ev.pollId = some ps2 ∧
      ps2.votes = setA ps.votes ev.userId ev.optionIds ∧
      lookupA ps2.votes ev.userId = some ev.optionIds ∧
      countKey ps2.votes ev.userId = 1 ∧
      (ps2.votes.map Prod.fst).Nodup := by
  rw [handlePollAnswer_state st ev ps h, lookupA_setA_self]
  exact ⟨_, rfl, rfl, lookupA_setA_self _ _ _,
    countKey_setA_self _ _ _ hnodup, nodupKeys_setA _ _ _ hnodup⟩

theorem run_same_user_last_write (pid : String) (uid : Nat) :
    ∀ (sels : List (List Nat)) (lastSel : List Nat) (st : AggState)
      (ps : PollState), lookupA st pid = some ps →
      (ps.votes.map Prod.fst).Nodup →
      ∃ psF, lookupA (runPollAnswers st ((sels ++ [lastSel]).map
          (fun s => PollAnswerEv.mk pid uid s))).1 pid = some psF ∧
        lookupA psF.votes uid = some lastSel ∧
        countKey psF.votes uid = 1 := by
  intro sels
  induction sels with
  | nil =>
    intro lastSel st ps h hnodup
    show ∃ psF, lookupA
      (runPollAnswers (handlePollAnswer st (PollAnswerEv.mk pid uid lastSel)).1 []).1
        pid = some psF ∧ _
    obtain ⟨ps2, hps2, hv, hlook, hcount, -⟩ :=
      handlePollAnswer_votes st (PollAnswerEv.mk pid uid lastSel) ps h hnodup
    exact ⟨ps2, hps2, hlook, hcount⟩
  | cons s sels ih =>
    intro lastSel st ps h hnodup
    show ∃ psF, lookupA
      (runPollAnswers (handlePollAnswer st (PollAnswerEv.mk pid uid s)).1
        ((sels ++ [lastSel]).map (fun s => PollAnswerEv.mk pid uid s))).1
        pid = some psF ∧ _
    obtain ⟨ps2, hps2, hv, -, -, hnodup2⟩ :=
      handlePollAnswer_votes st (PollAnswerEv.mk pid uid s) ps h hnodup
    exact ih lastSel (handlePollAnswer st (PollAnswerEv.mk pid uid s)).1 ps2
      hps2 hnodup2

/-- Claim C3: for every tracked poll, a vote event fires the group
notification exactly when it brings the count of users whose current
selection includes option index 0 to at least the threshold of 5 while the
poll's `notified` flag is still false; the firing event sets
`notified = true`; the flag is monotone under every further event; and along
any sequence of vote events at most one notification is ever sent for a
given poll — in particular, a count that drops below the threshold and later
reaches it again never renotifies. -/
theorem attendance_threshold_once :
    (∀ st ev, (handlePollAnswer st ev).2 = true ↔
      ∃ ps, lookupA st ev.pollId = some ps ∧ ps.notified = false ∧
        THRESHOLD ≤ goingCount (setA ps.votes ev.userId ev.optionIds)) ∧
    (∀ st ev, (handlePollAnswer st ev).2 = true →
      ∃ ps2, lookupA (handlePollAnswer st ev).1 ev.pollId = some ps2 ∧
        ps2.notified = true) ∧
    (∀ st ev pid ps, lookupA st pid = some ps → ps.notified = true →
      ∃ ps2, lookupA (handlePollAnswer st ev).1 pid = some ps2 ∧
        ps2.notified = true) ∧
    (∀ st evs pid, notificationsFor (runPollAnswers st evs).2 pid ≤ 1) :=
  ⟨handlePollAnswer_sent_iff, handlePollAnswer_sent_notified,
    fun st ev pid ps h hn =>
      handlePollAnswer_notified_monotone st ev pid ps h hn,
    fun st evs pid => notificationsFor_le_one pid evs st⟩

/-- Witness for C3: a fifth attending vote on a poll with four attending
voters fires the notification, and replaying a sequence that crosses the
threshold, drops below it and crosses again yields at most one
notification. -/
theorem attendance_threshold_once_witness :
    (handlePollAnswer
        [(("p"), PollState.mk 77 5 false
          [(1, [0]), (2, [0]), (3, [0]), (4, [0])])]
        (PollAnswerEv.mk ("p") 5 [0])).2 = true ∧
      notificationsFor
        (runPollAnswers
          [(("p"), PollState.mk 77 5 false
            [(1, [0]), (2, [0]), (3, [0]), (4, [0])])]
          [PollAnswerEv.mk ("p") 5 [0], PollAnswerEv.mk ("p") 5 [1],
            PollAnswerEv.mk ("p") 5 [0]]).2 ("p") ≤ 1 :=
  ⟨(attendance_threshold_once.1 _ _).mpr ⟨_, rfl, rfl, by decide⟩,
    attendance_threshold_once.2.2.2 _ _ _⟩

/-- Claim C9: vote recording is last-write-wins per user: a vote event for a
tracked poll leaves exactly one entry for the voting user, holding the
latest selection, in that poll's votes mapping (given the unique-keys
dictionary invariant, which the update preserves); after any sequence of
vote events from the same user the mapping holds exactly one entry for that
user containing only the final selection; and a vote event for an untracked
poll id leaves the aggregator state unchanged and reports no notification. -/
theorem vote_recording_last_write_wins :
    (∀ st ev, lookupA st ev.pollId = none →
      handlePollAnswer st ev = (st, false)) ∧
    (∀ st ev ps, lookupA st ev.pollId = some ps →
      (ps.votes.map Prod.fst).Nodup →
      ∃ ps2, lookupA (handlePollAnswer st ev).1 ev.pollId = some ps2 ∧
        ps2.votes = setA ps.votes ev.userId ev.optionIds ∧
        lookupA ps2.votes ev.userId = some ev.optionIds ∧
        countKey ps2.votes ev.userId = 1 ∧
        (ps2.votes.map Prod.fst).Nodup) ∧
    (∀ pid uid sels lastSel st ps, lookupA st pid = some ps →
      (ps.votes.map Prod.fst).Nodup →
      ∃ psF, lookupA (runPollAnswers st ((sels ++ [lastSel]).map
          (fun s => PollAnswerEv.mk pid uid s))).1 pid = some psF ∧
        lookupA psF.votes uid = some lastSel ∧
        countKey psF.votes uid = 1) :=
  ⟨handlePollAnswer_unknown, handlePollAnswer_votes,
    fun pid uid sels lastSel st ps h hnodup =>
      run_same_user_last_write pid uid sels lastSel st ps h hnodup⟩

/-- Witness for C9: user 9 votes three times on poll "p"; only the final
selection `[0]` remains (one entry); and a vote for the untracked poll "q"
is a no-op. -/
theorem vote_recording_last_write_wins_witness :
    (∃ psF, lookupA (runPollAnswers
        [(("p"), PollState.mk 77 5 false [])]
        (([([1] : List Nat), [0, 2]] ++ [[0]]).map
          (fun s => PollAnswerEv.mk ("p") 9 s))).1 ("p") = some psF ∧
      lookupA psF.votes 9 = some [0] ∧ countKey psF.votes 9 = 1) ∧
      handlePollAnswer [(("p"), PollState.mk 77 5 false [])]
        (PollAnswerEv.mk ("q") 9 [0]) =
        ([(("p"), PollState.mk 77 5 false [])], false) :=
  ⟨vote_recording_last_write_wins.2.2 ("p") 9 [[1], [0, 2]] [0]
      [(("p"), PollState.mk 77 5 false [])] (PollState.mk 77 5 false [])
      rfl (by decide),
    vote_recording_last_write_wins.1 _ _ (by decide)⟩

/-! ### Generation pipeline (`postcard_client.HuggingFacePostcardClient`)

The remote service, the client-side placeholder asset and the Pillow drawing
primitives are modelled as an environment record: `responses k` is the HTTP
response the service returns to the `k`-th POST of a run; `placeholderImage`
is the result of `Image.open` on the bundled `postcard_placeholder.jpg`
(`none` models `FileNotFoundError` / `OSError`); `reencodePlaceholder` and
`legacyRender` stand for the pure Pillow pixel work of
`_render_fallback_postcard`'s convert/resize/save and of
`_render_legacy_postcard`'s drawing (gradient, glow, title, date, tagline,
panel, wrapped prompt text, footer) — the client's control flow is embedded
exactly, the pixel computations are environment-supplied functions of their
inputs.  Bytes are `List Nat`.  `estimatedTime` is the parsed
`estimated_time` field of a still-loading body; `none` models a missing
field or a JSON parse failure, which the code defaults to 3.0 seconds.
`raise_for_status` raises exactly on non-2xx statuses. -/

/-- Python `str.startswith`, expressed on the character lists of the two
strings (structurally recursive, unlike `String.startsWith`). -/
def strStartsWith (s pre : String) : Bool :=
  pre.data.isPrefixOf s.data

/-- An HTTP response from the synthesis service. -/
structure HttpResponse where
  status : Nat
  contentType : String
  content : List Nat
  estimatedTime : Option ℚ

/-- Environment of one `HuggingFacePostcardClient`: the service behaviour,
the client-side placeholder asset, the Pillow primitives, and the configured
attempt cap (`max_retries`, 3 unless overridden — `main.py` does not
override it). -/
structure ClientEnv where
  responses : Nat → HttpResponse
  placeholderImage : Option (List Nat)
  reencodePlaceholder : List Nat → List Nat
  legacyRender : String → List Nat
  maxRetries : Nat

/-- Exceptions `generate_postcard` can raise: `HTTPStatusError` from
`raise_for_status`, or the final `RuntimeError` when retries are
exhausted. -/
inductive GenError where
  | httpStatus (status : Nat)
  | retriesExhausted
deriving DecidableEq, Repr

/-- Observable trace of one `generate_postcard` run: how many POST requests
were made, which sleep durations were awaited, and the returned bytes or
the raised exception. -/
structure GenTrace where
  attempts : Nat
  sleeps : List ℚ
  result : Except GenError (List Nat)
deriving Repr

/-- Embedding of `_render_fallback_postcard`: re-encode the bundled
placeholder when it can be opened, otherwise draw the legacy postcard. -/
def renderFallbackPostcard (env : ClientEnv) (prompt : String) : List Nat :=
  match env.placeholderImage with
  | some img => env.reencodePlaceholder img
  | none => env.legacyRender prompt

/-- The retry loop of `generate_postcard`, about to issue the `k`-th request
with `remaining` loop iterations left.  Mirrors the body of
`for attempt in range(1, max_retries + 1)`: a 200 response with an
`image/*` content type returns its bytes; 402 returns the fallback
rendering; 202 sleeps `min(estimated_time, 10.0)` (default 3.0) and
retries; any other non-2xx status raises via `raise_for_status`; any other
2xx status falls through `raise_for_status` and the loop retries it with no
sleep; an exhausted loop raises `RuntimeError`. -/
def genLoop (env : ClientEnv) (prompt : String) : Nat → Nat → GenTrace
  | _, 0 => GenTrace.mk 0 [] (Except.error GenError.retriesExhausted)
  | k, remaining + 1 =>
    let r := env.responses k
    if r.status = 200 ∧ strStartsWith r.contentType ("image/") then
      GenTrace.mk 1 [] (Except.ok r.content)
    else if r.status = 402 then
      GenTrace.mk 1 [] (Except.ok (renderFallbackPostcard env prompt))
    else if r.status = 202 then
      let wait := r.estimatedTime.getD 3
      let t := genLoop env prompt (k + 1) remaining
      GenTrace.mk (t.attempts + 1) (min wait 10 :: t.sleeps) t.result
    else if 200 ≤ r.status ∧ r.status < 300 then
      let t := genLoop env prompt (k + 1) remaining
      GenTrace.mk (t.attempts + 1) t.sleeps t.result
    else
      GenTrace.mk 1 [] (Except.error (GenError.httpStatus r.status))

/-- Embedding of `HuggingFacePostcardClient.generate_postcard`: run the
retry loop from the first request with `max_retries` iterations.  (The
request payload — prompt, negative prompt, guidance, steps, size — does not
feed back into the modelled response stream and is not repeated here.) -/
def generatePostcard (env : ClientEnv) (prompt : String) : GenTrace :=
  genLoop env prompt 0 env.maxRetries

/-- Specification-side predicate: responses after which the loop moves on to
another attempt — still-loading, or any other 2xx response that is neither
an image success nor quota-exceeded. -/
def ContinuesLoop (r : HttpResponse) : Prop :=
  200 ≤ r.status ∧ r.status < 300 ∧
    ¬(r.status = 200 ∧ strStartsWith r.contentType ("image/") = true)

/-- Specification-side view of the sleeps a run performs: one capped sleep
per consumed still-loading response. -/
def expectedSleeps (env : ClientEnv) (k attempts : Nat) : List ℚ :=
  (List.range attempts).filterMap (fun j =>
    if (env.responses (k + j)).status = 202 then
      some (min ((env.responses (k + j)).estimatedTime.getD 3) 10)
    else none)

theorem genLoop_attempts_le (env : ClientEnv) (prompt : String) :
    ∀ remaining k, (genLoop env prompt k remaining).attempts ≤ remaining := by
  intro remaining
  induction remaining with
  | zero => intro k; exact Nat.le_refl 0
  | succ remaining ih =>
    intro k
    show (genLoop env prompt k (remaining + 1)).attempts ≤ remaining + 1
    rw [genLoop]
    split
    · exact Nat.le_add_left 1 remaining
    · split
      · exact Nat.le_add_left 1 remaining
      · split
        · have := ih (k + 1)
          simp only [GenTrace.mk.injEq]
          omega
        · split
          · have := ih (k + 1)
            simp only [GenTrace.mk.injEq]
            omega
          · exact Nat.le_add_left 1 remaining

theorem genLoop_image (env : ClientEnv) (prompt : String) (k remaining : Nat)
    (h1 : (env.responses k).status = 200 ∧
      strStartsWith (env.responses k).contentType ("image/") = true) :
    genLoop env prompt k (remaining + 1) =
      GenTrace.mk 1 [] (Except.ok (env.responses k).content) := by
  rw [genLoop, if_pos h1]

theorem genLoop_quota (env : ClientEnv) (prompt : String) (k remaining : Nat)
    (h1 : ¬((env.responses k).status = 200 ∧
      strStartsWith (env.responses k).contentType ("image/") = true))
    (h2 : (env.responses k).status = 402) :
    genLoop env prompt k (remaining + 1) =
      GenTrace.mk 1 [] (Except.ok (renderFallbackPostcard env prompt)) := by
  rw [genLoop, if_neg h1, if_pos h2]

theorem genLoop_loading (env : ClientEnv) (prompt : String) (k remaining : Nat)
    (h1 : ¬((env.responses k).status = 200 ∧
      strStartsWith (env.responses k).contentType ("image/") = true))
    (h3 : (env.responses k).status = 202) :
    genLoop env prompt k (remaining + 1) =
      GenTrace.mk ((genLoop env prompt (k + 1) remaining).attempts + 1)
        (min ((env.responses k).estimatedTime.getD 3) 10 ::
          (genLoop env prompt (k + 1) remaining).sleeps)
        (genLoop env prompt (k + 1) remaining).result := by
  rw [genLoop, if_neg h1, if_neg (by omega), if_pos h3]

theorem genLoop_fallthrough (env : ClientEnv) (prompt : String)
    (k remaining : Nat)
    (h1 : ¬((env.responses k).status = 200 ∧
      strStartsWith (env.responses k).contentType ("image/") = true))
    (h2 : ¬(env.responses k).status = 402)
    (h3 : ¬(env.responses k).status = 202)
    (h4 : 200 ≤ (env.responses k).status ∧ (env.responses k).status < 300) :
    genLoop env prompt k (remaining + 1) =
      GenTrace.mk ((genLoop env prompt (k + 1) remaining).attempts + 1)
        (genLoop env prompt (k + 1) remaining).sleeps
        (genLoop env prompt (k + 1) remaining).result := by
  rw [genLoop, if_neg h1, if_neg h2, if_neg h3, if_pos h4]

theorem genLoop_raise (env : ClientEnv) (prompt : String) (k remaining : Nat)
    (h1 : ¬((env.responses k).status = 200 ∧
      strStartsWith (env.responses k).contentType ("image/") = true))
    (h2 : ¬(env.responses k).status = 402)
    (h3 : ¬(env.responses k).status = 202)
    (h4 : ¬(200 ≤ (env.responses k).status ∧ (env.responses k).status < 300)) :
    genLoop env prompt k (remaining + 1) =
      GenTrace.mk 1 []
        (Except.error (GenError.httpStatus (env.responses k).status)) := by
  rw [genLoop, if_neg h1, if_neg h2, if_neg h3, if_neg h4]

theorem genLoop_continues (env : ClientEnv) (prompt : String) :
    ∀ remaining k j, j + 1 < (genLoop env prompt k remaining).attempts →
      ContinuesLoop (env.responses (k + j)) := by
  intro remaining
  induction remaining with
  | zero =>
    intro k j hj
    simp [genLoop] at hj
  | succ remaining ih =>
    intro k j hj
    by_cases h1 : (env.responses k).status = 200 ∧
        strStartsWith (env.responses k).contentType ("image/") = true
    · rw [genLoop_image env prompt k remaining h1] at hj
      simp at hj
    by_cases h2 : (env.responses k).status = 402
    · rw [genLoop_quota env prompt k remaining h1 h2] at hj
      simp at hj
    by_cases h3 : (env.responses k).status = 202
    · rw [genLoop_loading env prompt k remaining h1 h3] at hj
      simp only [] at hj
      cases j with
      | zero =>
        rw [Nat.add_zero]
        exact ⟨by omega, by omega, fun hc => h1 ⟨hc.1, hc.2⟩⟩
      | succ j =>
        have := ih (k + 1) j (by omega)
        have e : k + 1 + j = k + (j + 1) := by omega
        rw [e] at this
        exact this
    by_cases h4 : 200 ≤ (env.responses k).status ∧ (env.responses k).status < 300
    · rw [genLoop_fallthrough env prompt k remaining h1 h2 h3 h4] at hj
      simp only [] at hj
      cases j with
      | zero =>
        rw [Nat.add_zero]
        exact ⟨h4.1, h4.2, fun hc => h1 ⟨hc.1, hc.2⟩⟩
      | succ j =>
        have := ih (k + 1) j (by omega)
        have e : k + 1 + j = k + (j + 1) := by omega
        rw [e] at this
        exact this
    · rw [genLoop_raise env prompt k remaining h1 h2 h3 h4] at hj
      simp at hj

theorem expectedSleeps_succ (env : ClientEnv) (k n : Nat) :
    expectedSleeps env k (n + 1) =
      (if (env.responses k).status = 202 then
        [min ((env.responses k).estimatedTime.getD 3) 10] else []) ++
        expectedSleeps env (k + 1) n := by
  unfold expectedSleeps
  rw [List.range_succ_eq_map, List.filterMap_cons, List.filterMap_map]
  have hfun : ((fun j => if (env.responses (k + j)).status = 202 then
        some (min ((env.responses (k + j)).estimatedTime.getD 3) 10)
        else none) ∘ Nat.succ) =
      (fun j => if (env.responses (k + 1 + j)).status = 202 then
        some (min ((env.responses (k + 1 + j)).estimatedTime.getD 3) 10)
        else none) := by
    funext j
    simp only [Function.comp]
    have e : k + Nat.succ j = k + 1 + j := by omega
    rw [e]
  rw [hfun]
  simp only [Nat.add_zero]
  by_cases h : (env.responses k).status = 202
  · rw [if_pos h, if_pos h]
    rfl
  · rw [if_neg h, if_neg h]
    rfl

theorem genLoop_sleeps (env : ClientEnv) (prompt : String) :
    ∀ remaining k, (genLoop env prompt k remaining).sleeps =
      expectedSleeps env k (genLoop env prompt k remaining).attempts := by
  intro remaining
  induction remaining with
  | zero => intro k; rfl
  | succ remaining ih =>
    intro k
    by_cases h1 : (env.responses k).status = 200 ∧
        strStartsWith (env.responses k).contentType ("image/") = true
    · rw [genLoop_image env prompt k remaining h1]
      show ([] : List ℚ) = expectedSleeps env k 1
      rw [show (1 : Nat) = 0 + 1 from rfl, expectedSleeps_succ,
        if_neg (by rw [h1.1]; omega)]
      rfl
    by_cases h2 : (env.responses k).status = 402
    · rw [genLoop_quota env prompt k remaining h1 h2]
      show ([] : List ℚ) = expectedSleeps env k 1
      rw [show (1 : Nat) = 0 + 1 from rfl, expectedSleeps_succ,
        if_neg (by rw [h2]; omega)]
      rfl
    by_cases h3 : (env.responses k).status = 202
    · rw [genLoop_loading env prompt k remaining h1 h3]
      show min ((env.responses k).estimatedTime.getD 3) 10 ::
          (genLoop env prompt (k + 1) remaining).sleeps =
        expectedSleeps env k
          ((genLoop env prompt (k + 1) remaining).attempts + 1)
      rw [expectedSleeps_succ, if_pos h3, ih (k + 1)]
      rfl
    by_cases h4 : 200 ≤ (env.responses k).status ∧
        (env.responses k).status < 300
    · rw [genLoop_fallthrough env prompt k remaining h1 h2 h3 h4]
      show (genLoop env prompt (k + 1) remaining).sleeps =
        expectedSleeps env k
          ((genLoop env prompt (k + 1) remaining).attempts + 1)
      rw [expectedSleeps_succ, if_neg h3, ih (k + 1)]
      rfl
    · rw [genLoop_raise env prompt k remaining h1 h2 h3 h4]
      show ([] : List ℚ) = expectedSleeps env k 1
      rw [show (1 : Nat) = 0 + 1 from rfl, expectedSleeps_succ, if_neg h3]
      rfl

theorem genLoop_all_loading (env : ClientEnv) (prompt : String)
    (hall : ∀ j, (env.responses j).status = 202) :
    ∀ remaining k, (genLoop env prompt k remaining).attempts = remaining ∧
      (genLoop env prompt k remaining).result =
        Except.error GenError.retriesExhausted := by
  intro remaining
  induction remaining with
  | zero => intro k; exact ⟨rfl, rfl⟩
  | succ remaining ih =>
    intro k
    have h1 : ¬((env.responses k).status = 200 ∧
        strStartsWith (env.responses k).contentType ("image/") = true) := by
      intro hc
      have := hall k
      omega
    rw [genLoop_loading env prompt k remaining h1 (hall k)]
    refine ⟨?_, (ih (k + 1)).2⟩
    show (genLoop env prompt (k + 1) remaining).attempts + 1 = remaining + 1
    rw [(ih (k + 1)).1]

/-! ### Postcard send path (`handlers._send_postcard`, `scheduled_postcard_job`)

Chat-platform sends are recorded as a list of `ChatEvent`s; the handler-side
placeholder file read by `_load_placeholder_postcard` is a separate
environment field from the client-side placeholder image, matching the two
distinct files the two modules read. -/

/-- Chat-visible effects of the postcard path. -/
inductive ChatEvent where
  | photo (bytes : List Nat) (caption : String) (replyTo : Option Nat)
  | message (text : String) (replyTo : Option Nat)
  | poll (question : String) (options : List String)
  | uploadAction
deriving DecidableEq, Repr

/-- Environment of `_send_postcard`: the optional configured postcard
client, the per-broadcast placeholder file bytes (`none` models an
unreadable or missing file) and the `bot_data["postcard_caption"]`
default. -/
structure SendEnv where
  client : Option ClientEnv
  placeholderFile : Option (List Nat)
  botCaption : String

/-- Text sent when no client is configured and the placeholder is missing. -/
def noClientFailText : String :=
  "Генерация открыток недоступна: нет доступа к Hugging Face API."

/-- Text sent when generation raised and the placeholder is missing. -/
def genFailText : String :=
  "Не получилось сгенерировать открытку, попробуй позже."

/-- Embedding of `handlers._send_postcard`: without a configured client,
send the bundled placeholder photo (or an unavailability message when it is
unreadable); with a client, try `generate_postcard` inside
`try/except Exception` — returned bytes are sent as a photo, any raised
exception falls back to the placeholder photo, then to an apology message.
Returns the chat events and the boolean the caller gates the poll on.  (The
negative-prompt resolution only shapes the request payload, which does not
feed back into the modelled response stream.) -/
def sendPostcard (env : SendEnv) (prompt : String) (caption : Option String)
    (replyTo : Option Nat) : List ChatEvent × Bool :=
  let captionToSend := caption.getD env.botCaption
  match env.client with
  | none =>
    match env.placeholderFile with
    | none => ([ChatEvent.message noClientFailText replyTo], false)
    | some b => ([ChatEvent.photo b captionToSend replyTo], true)
  | some c =>
    match (generatePostcard c prompt).result with
    | Except.ok bytes => ([ChatEvent.photo bytes captionToSend replyTo], true)
    | Except.error _ =>
      match env.placeholderFile with
      | some b => ([ChatEvent.photo b captionToSend replyTo], true)
      | none => ([ChatEvent.message genFailText replyTo], false)

/-- The spec's tagged outcome of one Generation Pipeline invocation. -/
inductive RenderOutcome where
  | remote (bytes : List Nat)
  | locallyRendered (bytes : List Nat)
  | placeholder (bytes : List Nat)
  | failed (reason : String)
deriving DecidableEq, Repr

/-- Chat-visible interpretation of a `RenderOutcome`: each successful
variant sends the image and reports success; `failed` sends its textual
reason and reports failure. -/
def interpretOutcome (o : RenderOutcome) (captionToSend : String)
    (replyTo : Option Nat) : List ChatEvent × Bool :=
  match o with
  | RenderOutcome.remote b =>
    ([ChatEvent.photo b captionToSend replyTo], true)
  | RenderOutcome.locallyRendered b =>
    ([ChatEvent.photo b captionToSend replyTo], true)
  | RenderOutcome.placeholder b =>
    ([ChatEvent.photo b captionToSend replyTo], true)
  | RenderOutcome.failed reason =>
    ([ChatEvent.message reason replyTo], false)

/-- Specification-side classification of a whole pipeline run into the
spec's tagged `RenderOutcome`: bytes from a 200 image response are
`remote`; bytes produced by the 402 fallback are `placeholder` when they
re-encode the bundled client asset and `locallyRendered` when they were
drawn; a raised exception becomes `placeholder` when the handler-side
placeholder file is readable and `failed` otherwise; the no-client path is
`placeholder` or `failed` by the same file. -/
def pipelineRenderOutcome (env : SendEnv) (prompt : String) : RenderOutcome :=
  match env.client with
  | none =>
    match env.placeholderFile with
    | some b => RenderOutcome.placeholder b
    | none => RenderOutcome.failed noClientFailText
  | some c =>
    match (generatePostcard c prompt).result with
    | Except.error _ =>
      match env.placeholderFile with
      | some b => RenderOutcome.placeholder b
      | none => RenderOutcome.failed genFailText
    | Except.ok b =>
      if (c.responses ((generatePostcard c prompt).attempts - 1)).status = 402
      then
        match c.placeholderImage with
        | some _ => RenderOutcome.placeholder b
        | none => RenderOutcome.locallyRendered b
      else RenderOutcome.remote b

/-- Poll options used by `_start_attendance_poll`. -/
def DEFAULT_ATTENDANCE_OPTIONS : List String :=
  ["Я иду", "Ещё не решил", "Не смогу"]

/-- Environment of `scheduled_postcard_job`: the send environment, the
job's chat id (`None` makes the job skip), the rotation state, and the
already-resolved base prompt, poll question and caption override (the
`job_data` / `bot_data` / built-in default fallback chains resolve to these
values before the calls being modelled). -/
structure JobEnv where
  send : SendEnv
  chatId : Option Int
  scenarios : List String
  scenarioIndex : Nat
  basePrompt : String
  pollQuestion : String
  jobCaption : Option String

/-- Embedding of `handlers.scheduled_postcard_job`: skip without a chat id;
otherwise signal the upload action, compose the prompt (advancing the
rotation), send the postcard, and open the attendance poll exactly when the
send reported success.  Returns the chat events and the advanced rotation
cursor. -/
def scheduledPostcardJob (env : JobEnv) : List ChatEvent × Nat :=
  match env.chatId with
  | none => ([], env.scenarioIndex)
  | some _ =>
    let comp := composePostcardPrompt env.scenarios env.scenarioIndex
      env.basePrompt ("")
    let sent := sendPostcard env.send comp.1 env.jobCaption none
    if sent.2 then
      (ChatEvent.uploadAction :: sent.1 ++
        [ChatEvent.poll env.pollQuestion DEFAULT_ATTENDANCE_OPTIONS], comp.2)
    else
      (ChatEvent.uploadAction :: sent.1, comp.2)

theorem sendPostcard_noClient_noFile (env : SendEnv) (prompt : String)
    (caption : Option String) (replyTo : Option Nat)
    (hc : env.client = none) (hp : env.placeholderFile = none) :
    sendPostcard env prompt caption replyTo =
      ([ChatEvent.message noClientFailText replyTo], false) := by
  unfold sendPostcard
  rw [hc, hp]

theorem sendPostcard_noClient_file (env : SendEnv) (prompt : String)
    (caption : Option String) (replyTo : Option Nat) (b : List Nat)
    (hc : env.client = none) (hp : env.placeholderFile = some b) :
    sendPostcard env prompt caption replyTo =
      ([ChatEvent.photo b (caption.getD env.botCaption) replyTo], true) := by
  unfold sendPostcard
  rw [hc, hp]

theorem sendPostcard_ok (env : SendEnv) (prompt : String)
    (caption : Option String) (replyTo : Option Nat) (c : ClientEnv)
    (bytes : List Nat) (hc : env.client = some c)
    (hres : (generatePostcard c prompt).result = Except.ok bytes) :
    sendPostcard env prompt caption replyTo =
      ([ChatEvent.photo bytes (caption.getD env.botCaption) replyTo],
        true) := by
  unfold sendPostcard
  rw [hc]
  simp only []
  rw [hres]

theorem sendPostcard_error_file (env : SendEnv) (prompt : String)
    (caption : Option String) (replyTo : Option Nat) (c : ClientEnv)
    (e : GenError) (b : List Nat) (hc : env.client = some c)
    (hres : (generatePostcard c prompt).result = Except.error e)
    (hp : env.placeholderFile = some b) :
    sendPostcard env prompt caption replyTo =
      ([ChatEvent.photo b (caption.getD env.botCaption) replyTo], true) := by
  unfold sendPostcard
  rw [hc]
  simp only []
  rw [hres, hp]

theorem sendPostcard_error_noFile (env : SendEnv) (prompt : String)
    (caption : Option String) (replyTo : Option Nat) (c : ClientEnv)
    (e : GenError) (hc : env.client = some c)
    (hres : (generatePostcard c prompt).result = Except.error e)
    (hp : env.placeholderFile = none) :
    sendPostcard env prompt caption replyTo =
      ([ChatEvent.message genFailText replyTo], false) := by
  unfold sendPostcard
  rw [hc]
  simp only []
  rw [hres, hp]

theorem sendPostcard_shape (env : SendEnv) (prompt : String)
    (caption : Option String) (replyTo : Option Nat) :
    (∃ b, sendPostcard env prompt caption replyTo =
      ([ChatEvent.photo b (caption.getD env.botCaption) replyTo], true)) ∨
    (∃ t, sendPostcard env prompt caption replyTo =
      ([ChatEvent.message t replyTo], false)) := by
  cases hc : env.client with
  | none =>
    cases hp : env.placeholderFile with
    | none =>
      exact Or.inr ⟨noClientFailText,
        sendPostcard_noClient_noFile env prompt caption replyTo hc hp⟩
    | some b =>
      exact Or.inl ⟨b,
        sendPostcard_noClient_file env prompt caption replyTo b hc hp⟩
  | some c =>
    cases hres : (generatePostcard c prompt).result with
    | ok bytes =>
      exact Or.inl ⟨bytes,
        sendPostcard_ok env prompt caption replyTo c bytes hc hres⟩
    | error e =>
      cases hp : env.placeholderFile with
      | some b =>
        exact Or.inl ⟨b,
          sendPostcard_error_file env prompt caption replyTo c e b hc hres hp⟩
      | none =>
        exact Or.inr ⟨genFailText,
          sendPostcard_error_noFile env prompt caption replyTo c e hc hres hp⟩

theorem pipelineRenderOutcome_remote (env : SendEnv) (prompt : String)
    (c : ClientEnv) (bytes : List Nat) (hc : env.client = some c)
    (hres : (generatePostcard c prompt).result = Except.ok bytes)
    (h402 : ¬(c.responses
      ((generatePostcard c prompt).attempts - 1)).status = 402) :
    pipelineRenderOutcome env prompt = RenderOutcome.remote bytes := by
  unfold pipelineRenderOutcome
  rw [hc]
  simp only []
  rw [hres]
  simp only []
  rw [if_neg h402]

theorem pipelineRenderOutcome_fallback (env : SendEnv) (prompt : String)
    (c : ClientEnv) (bytes : List Nat) (hc : env.client = some c)
    (hres : (generatePostcard c prompt).result = Except.ok bytes)
    (h402 : (c.responses
      ((generatePostcard c prompt).attempts - 1)).status = 402) :
    pipelineRenderOutcome env prompt =
      match c.placeholderImage with
      | some _ => RenderOutcome.placeholder bytes
      | none => RenderOutcome.locallyRendered bytes := by
  unfold pipelineRenderOutcome
  rw [hc]
  simp only []
  rw [hres]
  simp only []
  rw [if_pos h402]

theorem pipelineRenderOutcome_error (env : SendEnv) (prompt : String)
    (c : ClientEnv) (e : GenError) (hc : env.client = some c)
    (hres : (generatePostcard c prompt).result = Except.error e) :
    pipelineRenderOutcome env prompt =
      match env.placeholderFile with
      | some b => RenderOutcome.placeholder b
      | none => RenderOutcome.failed genFailText := by
  unfold pipelineRenderOutcome
  rw [hc]
  simp only []
  rw [hres]

/-- Claim C5: for every possible remote-service behaviour — any status
code, retries exhausted, unexpected statuses — the generation-and-send path
hands the Scheduler an ordinary tagged outcome: the chat sees exactly the
interpretation of a `RenderOutcome` (one photo with success reported, or
one textual message with failure reported); a raised remote-service
exception is always converted — into the placeholder photo with success
when the placeholder file is readable, otherwise into the `failed` apology
message — and never propagates to the Scheduler. -/
theorem pipeline_no_exception_escape (env : SendEnv) (prompt : String)
    (caption : Option String) (replyTo : Option Nat) (c : ClientEnv)
    (hc : env.client = some c) :
    (sendPostcard env prompt caption replyTo =
      interpretOutcome (pipelineRenderOutcome env prompt)
        (caption.getD env.botCaption) replyTo) ∧
    (∀ e b, (generatePostcard c prompt).result = Except.error e →
      env.placeholderFile = some b →
      sendPostcard env prompt caption replyTo =
        ([ChatEvent.photo b (caption.getD env.botCaption) replyTo], true)) ∧
    (∀ e, (generatePostcard c prompt).result = Except.error e →
      env.placeholderFile = none →
      sendPostcard env prompt caption replyTo =
        ([ChatEvent.message genFailText replyTo], false)) := by
  refine ⟨?_,
    fun e b hres hp =>
      sendPostcard_error_file env prompt caption replyTo c e b hc hres hp,
    fun e hres hp =>
      sendPostcard_error_noFile env prompt caption replyTo c e hc hres hp⟩
  cases hres : (generatePostcard c prompt).result with
  | ok bytes =>
    rw [sendPostcard_ok env prompt caption replyTo c bytes hc hres]
    by_cases h402 : (c.responses
        ((generatePostcard c prompt).attempts - 1)).status = 402
    · rw [pipelineRenderOutcome_fallback env prompt c bytes hc hres h402]
      cases c.placeholderImage <;> rfl
    · rw [pipelineRenderOutcome_remote env prompt c bytes hc hres h402]
      rfl
  | error e =>
    rw [pipelineRenderOutcome_error env prompt c e hc hres]
    cases hp : env.placeholderFile with
    | some b =>
      rw [sendPostcard_error_file env prompt caption replyTo c e b hc hres hp]
      rfl
    | none =>
      rw [sendPostcard_error_noFile env prompt caption replyTo c e hc hres hp]
      rfl

/-- Environment for the C5 witness: the service always answers HTTP 500 and
no placeholder exists anywhere. -/
def alwaysErrorSendEnv : SendEnv :=
  SendEnv.mk
    (some (ClientEnv.mk (fun _ => HttpResponse.mk 500 ("") [] none) none
      (fun b => b) (fun _ => []) 3))
    none ("caption")

/-- Witness for C5 on a service that always answers HTTP 500 with no
placeholder available: the Scheduler receives the interpreted `failed`
outcome (an apology message and `false`), not an exception. -/
theorem pipeline_no_exception_escape_witness :
    sendPostcard alwaysErrorSendEnv ("p") none none =
      interpretOutcome (pipelineRenderOutcome alwaysErrorSendEnv ("p"))
        ((none : Option String).getD alwaysErrorSendEnv.botCaption) none ∧
    sendPostcard alwaysErrorSendEnv ("p") none none =
      ([ChatEvent.message genFailText none], false) :=
  ⟨(pipeline_no_exception_escape alwaysErrorSendEnv ("p") none none _ rfl).1,
    (pipeline_no_exception_escape alwaysErrorSendEnv ("p") none none _
      rfl).2.2 (GenError.httpStatus 500) rfl rfl⟩

/-- Environment for the C2 counterexample: the service immediately reports
quota exceeded (402), the bundled client placeholder opens successfully as
image `[7]`, re-encoding is the identity, and the legacy drawing primitive
succeeds, producing `[9]`. -/
def quotaEnv : ClientEnv :=
  ClientEnv.mk (fun _ => HttpResponse.mk 402 ("application/json") [] none)
    (some [7]) (fun b => b) (fun _ => [9]) 3

/-- Claim C2 counterexample: on HTTP 402, with the bundled placeholder
readable and the local drawing primitive succeeding, the fallback returns
the re-encoded placeholder bytes `[7]` — not the locally drawn image `[9]`
as the claim's ordering requires.  The code tries the placeholder file
first and draws only when that file is unreadable. -/
theorem quota_fallback_order_counterexample :
    (generatePostcard quotaEnv ("p")).result = Except.ok [7] ∧
      quotaEnv.legacyRender ("p") = [9] ∧
      Except.ok ([7] : List Nat) ≠
        (Except.ok [9] : Except GenError (List Nat)) := by
  refine ⟨rfl, rfl, ?_⟩
  intro h
  injection h with h2
  exact absurd h2 (by decide)

/-- Claim C2, amended: when the remote service reports quota exceeded
(HTTP 402), the pipeline makes no further attempts and returns, as that
attempt's successful result, the re-encoded bundled placeholder image when
the placeholder file can be opened; only if that file is missing or
unreadable does it compose the locally drawn static-layout image (gradient,
title, date, wrapped prompt text, decorative panel) from local drawing
primitives.  A failure of that drawing itself propagates as an exception to
the send wrapper (which falls back to the per-broadcast placeholder file or
reports failure, per C5). -/
theorem quota_fallback_order (env : ClientEnv) (prompt : String)
    (hmr : 0 < env.maxRetries)
    (h402 : (env.responses 0).status = 402) :
    generatePostcard env prompt =
      GenTrace.mk 1 [] (Except.ok (renderFallbackPostcard env prompt)) ∧
    (∀ img, env.placeholderImage = some img →
      renderFallbackPostcard env prompt = env.reencodePlaceholder img) ∧
    (env.placeholderImage = none →
      renderFallbackPostcard env prompt = env.legacyRender prompt) := by
  obtain ⟨r, hr⟩ : ∃ r, env.maxRetries = r + 1 :=
    ⟨env.maxRetries - 1, by omega⟩
  refine ⟨?_, ?_, ?_⟩
  · unfold generatePostcard
    rw [hr]
    exact genLoop_quota env prompt 0 r
      (by intro hc; rw [hc.1] at h402; exact absurd h402 (by decide)) h402
  · intro img himg
    unfold renderFallbackPostcard
    rw [himg]
  · intro hnone
    unfold renderFallbackPostcard
    rw [hnone]

/-- Witness for the amended C2 at `quotaEnv`: one attempt, quota response,
placeholder-first fallback result. -/
theorem quota_fallback_order_witness :
    0 < quotaEnv.maxRetries ∧ (quotaEnv.responses 0).status = 402 ∧
      generatePostcard quotaEnv ("p") =
        GenTrace.mk 1 [] (Except.ok (renderFallbackPostcard quotaEnv ("p"))) :=
  ⟨by decide, rfl, (quota_fallback_order quotaEnv ("p") (by decide) rfl).1⟩

/-- Environment for the C4 counterexample: the service always answers
HTTP 200 with a JSON body and no image content type. -/
def json200Env : ClientEnv :=
  ClientEnv.mk (fun _ => HttpResponse.mk 200 ("application/json") [] none)
    none (fun b => b) (fun _ => []) 3

/-- Claim C4 counterexample: against a service that always answers HTTP 200
with a JSON body, the loop makes all three attempts, although no response
reported the retryable still-loading status (202) — a 2xx response that is
neither an image success nor quota-exceeded falls through
`raise_for_status` and is silently retried. -/
theorem retry_only_on_loading_counterexample :
    (generatePostcard json200Env ("p")).attempts = 3 ∧
      (json200Env.responses 0).status ≠ 202 := by
  exact ⟨rfl, by decide⟩

/-- Claim C4, amended: every run of `generate_postcard` makes at most
`max_retries` remote attempts in total, so the retry loop terminates within
the attempt cap even against a service that always answers still-loading
(which consumes exactly `max_retries` attempts and then raises the
exhaustion error); an attempt is followed by another one only when its
response was retryable-by-the-loop — the still-loading status 202, or any
other 2xx response that is neither a 200 image success nor 402 (such a
response is retried immediately, with no sleep); the sleeps performed are
exactly one per consumed still-loading response, of the service-suggested
duration (default 3.0 on a missing or unparsable field) capped at 10
seconds; every non-2xx status other than 402 is terminal for the run. -/
theorem retry_bound_and_policy (env : ClientEnv) (prompt : String) :
    (generatePostcard env prompt).attempts ≤ env.maxRetries ∧
    (∀ j, j + 1 < (generatePostcard env prompt).attempts →
      ContinuesLoop (env.responses j)) ∧
    ((generatePostcard env prompt).sleeps =
      expectedSleeps env 0 (generatePostcard env prompt).attempts) ∧
    ((∀ j, (env.responses j).status = 202) →
      (generatePostcard env prompt).attempts = env.maxRetries ∧
      (generatePostcard env prompt).result =
        Except.error GenError.retriesExhausted) := by
  refine ⟨genLoop_attempts_le env prompt env.maxRetries 0, ?_,
    genLoop_sleeps env prompt env.maxRetries 0,
    fun hall => genLoop_all_loading env prompt hall env.maxRetries 0⟩
  intro j hj
  have := genLoop_continues env prompt env.maxRetries 0 j hj
  rw [Nat.zero_add] at this
  exact this

/-- Environment for the C4 witness: the service always answers still-loading
with a suggested wait of 50 seconds. -/
def loadingEnv : ClientEnv :=
  ClientEnv.mk (fun _ => HttpResponse.mk 202 ("") [] (some 50)) none
    (fun b => b) (fun _ => []) 3

/-- Witness for the amended C4 on an always-still-loading service: exactly
`max_retries = 3` attempts, exhaustion error, and each sleep capped at 10
seconds despite the suggested 50. -/
theorem retry_bound_and_policy_witness :
    ((generatePostcard loadingEnv ("p")).attempts = loadingEnv.maxRetries ∧
      (generatePostcard loadingEnv ("p")).result =
        Except.error GenError.retriesExhausted) ∧
      (generatePostcard loadingEnv ("p")).sleeps = [10, 10, 10] :=
  ⟨(retry_bound_and_policy loadingEnv ("p")).2.2.2 (fun _ => rfl), rfl⟩

/-- Claim C7: when the remote service returns image bytes on the first
attempt (HTTP 200 with an `image/*` content type), the pipeline makes
exactly one network call, performs no sleeps, and returns those remote
bytes immediately; the send path forwards them as the photo (the `remote`
outcome) with no fallback rendering involved. -/
theorem remote_first_attempt (c : ClientEnv) (prompt : String)
    (h200 : (c.responses 0).status = 200)
    (himg : strStartsWith (c.responses 0).contentType ("image/") = true)
    (hmr : 0 < c.maxRetries) :
    generatePostcard c prompt =
      GenTrace.mk 1 [] (Except.ok (c.responses 0).content) ∧
    (∀ (env : SendEnv) (caption : Option String) (replyTo : Option Nat),
      env.client = some c →
      sendPostcard env prompt caption replyTo =
        ([ChatEvent.photo (c.responses 0).content
          (caption.getD env.botCaption) replyTo], true) ∧
      pipelineRenderOutcome env prompt =
        RenderOutcome.remote (c.responses 0).content) := by
  obtain ⟨r, hr⟩ : ∃ r, c.maxRetries = r + 1 := ⟨c.maxRetries - 1, by omega⟩
  have hgen : generatePostcard c prompt =
      GenTrace.mk 1 [] (Except.ok (c.responses 0).content) := by
    unfold generatePostcard
    rw [hr]
    exact genLoop_image c prompt 0 r ⟨h200, himg⟩
  have hres : (generatePostcard c prompt).result =
      Except.ok (c.responses 0).content := by
    rw [hgen]
  have h402 : ¬(c.responses
      ((generatePostcard c prompt).attempts - 1)).status = 402 := by
    rw [hgen]
    show ¬(c.responses 0).status = 402
    rw [h200]
    decide
  refine ⟨hgen, ?_⟩
  intro env caption replyTo hc
  exact ⟨sendPostcard_ok env prompt caption replyTo c _ hc hres,
    pipelineRenderOutcome_remote env prompt c _ hc hres h402⟩

/-- Client for the C7 witness: image bytes `[1, 2]` on the first response. -/
def imgFirstClient : ClientEnv :=
  ClientEnv.mk (fun _ => HttpResponse.mk 200 ("image/png") [1, 2] none) none
    (fun b => b) (fun _ => []) 3

/-- Environment for the C7 witness around `imgFirstClient`. -/
def imgFirstSendEnv : SendEnv :=
  SendEnv.mk (some imgFirstClient) (some [5]) ("cap")

/-- Witness for C7: one attempt, the remote bytes sent as the photo. -/
theorem remote_first_attempt_witness :
    generatePostcard imgFirstClient ("p") =
      GenTrace.mk 1 [] (Except.ok [1, 2]) ∧
    sendPostcard imgFirstSendEnv ("p") none none =
      ([ChatEvent.photo [1, 2] ("cap") none], true) :=
  ⟨(remote_first_attempt imgFirstClient ("p") rfl rfl (by decide)).1,
    ((remote_first_attempt imgFirstClient ("p") rfl rfl (by decide)).2
      imgFirstSendEnv none none rfl).1⟩

theorem scheduledPostcardJob_eq (env : JobEnv) (chat : Int)
    (hchat : env.chatId = some chat) :
    scheduledPostcardJob env =
      (if (sendPostcard env.send
          (composePostcardPrompt env.scenarios env.scenarioIndex
            env.basePrompt ("")).1 env.jobCaption none).2 then
        (ChatEvent.uploadAction ::
          (sendPostcard env.send
            (composePostcardPrompt env.scenarios env.scenarioIndex
              env.basePrompt ("")).1 env.jobCaption none).1 ++
          [ChatEvent.poll env.pollQuestion DEFAULT_ATTENDANCE_OPTIONS],
          (composePostcardPrompt env.scenarios env.scenarioIndex
            env.basePrompt ("")).2)
      else
        (ChatEvent.uploadAction ::
          (sendPostcard env.send
            (composePostcardPrompt env.scenarios env.scenarioIndex
              env.basePrompt ("")).1 env.jobCaption none).1,
          (composePostcardPrompt env.scenarios env.scenarioIndex
            env.basePrompt ("")).2)) := by
  unfold scheduledPostcardJob
  rw [hchat]

/-- Claim C6: on every trigger firing with a configured chat, the
attendance poll is opened if and only if the image send succeeded: a
successful send (any successful `RenderOutcome` variant) sends the photo
and then opens the poll as the last action, while a failed send emits a
textual message instead and opens no poll. -/
theorem poll_opened_iff_send_succeeded (env : JobEnv) (chat : Int)
    (hchat : env.chatId = some chat) :
    ((∃ q opts, ChatEvent.poll q opts ∈ (scheduledPostcardJob env).1) ↔
      (sendPostcard env.send
        (composePostcardPrompt env.scenarios env.scenarioIndex
          env.basePrompt ("")).1 env.jobCaption none).2 = true) ∧
    ((sendPostcard env.send
        (composePostcardPrompt env.scenarios env.scenarioIndex
          env.basePrompt ("")).1 env.jobCaption none).2 = true ↔
      ∃ b cpt, ChatEvent.photo b cpt none ∈ (scheduledPostcardJob env).1) ∧
    ((sendPostcard env.send
        (composePostcardPrompt env.scenarios env.scenarioIndex
          env.basePrompt ("")).1 env.jobCaption none).2 = true →
      (scheduledPostcardJob env).1.getLast? =
        some (ChatEvent.poll env.pollQuestion DEFAULT_ATTENDANCE_OPTIONS)) ∧
    ((sendPostcard env.send
        (composePostcardPrompt env.scenarios env.scenarioIndex
          env.basePrompt ("")).1 env.jobCaption none).2 = false →
      (∃ t, ChatEvent.message t none ∈ (scheduledPostcardJob env).1) ∧
      ∀ q opts, ChatEvent.poll q opts ∉ (scheduledPostcardJob env).1) := by
  rw [scheduledPostcardJob_eq env chat hchat]
  rcases sendPostcard_shape env.send
      (composePostcardPrompt env.scenarios env.scenarioIndex
        env.basePrompt ("")).1 env.jobCaption none with ⟨b, hs⟩ | ⟨t, hs⟩
  · rw [hs]
    refine ⟨?_, ?_, ?_, ?_⟩
    · simp
    · simp only [List.cons_append, List.singleton_append]
      constructor
      · intro _
        exact ⟨b, (env.jobCaption.getD env.send.botCaption), by simp⟩
      · intro _
        trivial
    · intro _
      rfl
    · intro habs
      simp at habs
  · rw [hs]
    refine ⟨?_, ?_, ?_, ?_⟩
    · simp
    · simp
    · intro habs
      simp at habs
    · intro _
      exact ⟨⟨t, by simp⟩, by simp⟩

/-- Environment for the C6 witness: no client, readable placeholder. -/
def placeholderJobEnv : JobEnv :=
  JobEnv.mk (SendEnv.mk none (some [5]) ("cap")) (some 42) [] 0 ("base")
    ("Кто идёт?") none

/-- Witness for C6 at a job whose send succeeds via the placeholder: the
poll is opened as the last action. -/
theorem poll_opened_iff_send_succeeded_witness :
    (scheduledPostcardJob placeholderJobEnv).1.getLast? =
      some (ChatEvent.poll placeholderJobEnv.pollQuestion
        DEFAULT_ATTENDANCE_OPTIONS) :=
  (poll_opened_iff_send_succeeded placeholderJobEnv 42 rfl).2.2.1 rfl

/-- Claim C10: with no postcard client configured, `_send_postcard` skips
remote generation entirely: a readable placeholder file is sent as the
photo with the resolved caption and `true` is returned, so the calling job
still opens the attendance poll; an unreadable placeholder file sends the
textual unavailability message and returns `false`, so no poll is
opened. -/
theorem no_client_placeholder_path (env : SendEnv) (prompt : String)
    (caption : Option String) (replyTo : Option Nat)
    (hc : env.client = none) :
    (∀ b, env.placeholderFile = some b →
      sendPostcard env prompt caption replyTo =
        ([ChatEvent.photo b (caption.getD env.botCaption) replyTo], true)) ∧
    (env.placeholderFile = none →
      sendPostcard env prompt caption replyTo =
        ([ChatEvent.message noClientFailText replyTo], false)) ∧
    (∀ (jenv : JobEnv) (chat : Int), jenv.send = env →
      jenv.chatId = some chat →
      (∀ b, env.placeholderFile = some b →
        (scheduledPostcardJob jenv).1.getLast? =
          some (ChatEvent.poll jenv.pollQuestion
            DEFAULT_ATTENDANCE_OPTIONS)) ∧
      (env.placeholderFile = none →
        ∀ q opts, ChatEvent.poll q opts ∉ (scheduledPostcardJob jenv).1)) := by
  refine ⟨fun b hp =>
      sendPostcard_noClient_file env prompt caption replyTo b hc hp,
    fun hp => sendPostcard_noClient_noFile env prompt caption replyTo hc hp,
    ?_⟩
  intro jenv chat hsend hchat
  rw [scheduledPostcardJob_eq jenv chat hchat]
  constructor
  · intro b hb
    rw [sendPostcard_noClient_file jenv.send _ jenv.jobCaption none b
      (by rw [hsend]; exact hc) (by rw [hsend]; exact hb)]
    rfl
  · intro hp q opts
    rw [sendPostcard_noClient_noFile jenv.send _ jenv.jobCaption none
      (by rw [hsend]; exact hc) (by rw [hsend]; exact hp)]
    simp

/-- Environment for the C10 witness: no client, no placeholder file. -/
def unavailableJobEnv : JobEnv :=
  JobEnv.mk (SendEnv.mk none none ("cap")) (some 42) [] 0 ("base")
    ("Кто идёт?") none

/-- Witness for C10: readable placeholder sends the photo and the job opens
the poll; unreadable placeholder sends the unavailability text and the job
opens no poll. -/
theorem no_client_placeholder_path_witness :
    sendPostcard (SendEnv.mk none (some [5]) ("cap")) ("p") none none =
      ([ChatEvent.photo [5] ("cap") none], true) ∧
    sendPostcard (SendEnv.mk none none ("cap")) ("p") none none =
      ([ChatEvent.message noClientFailText none], false) ∧
    ∀ q opts, ChatEvent.poll q opts ∉ (scheduledPostcardJob unavailableJobEnv).1 :=
  ⟨(no_client_placeholder_path (SendEnv.mk none (some [5]) ("cap")) ("p")
      none none rfl).1 [5] rfl,
    (no_client_placeholder_path (SendEnv.mk none none ("cap")) ("p")
      none none rfl).2.1 rfl,
    fun q opts =>
      ((no_client_placeholder_path (SendEnv.mk none none ("cap")) ("p")
        none none rfl).2.2 unavailableJobEnv 42 rfl rfl).2 rfl q opts⟩

end BeerBot
